import Mathlib

/-!
Shallow embedding of `src/bmp.rs` (BMP-Rust).

Conventions of the embedding:
* The byte buffer `self.contents : Vec<u8>` is a `List Nat` (real buffers hold
  values `< 256`; nothing below depends on that bound).
* Rust `Result<_, ErrorKind>` becomes `Except Failure _`, where `Failure` also
  records the ways the Rust code can panic: out-of-bounds indexing/slicing,
  `Option::unwrap` on `None` (including the `HashMap::get(..).unwrap()` inside
  `int_to_compression`), division by zero, and arithmetic overflow.  Arithmetic
  overflow of `u16`/`u32` operators is modelled with debug-profile semantics
  (a panic); `as` casts never panic and are modelled as `% 2^width`.
* Rust `String` values built by `bytes_to_string` (`bfType`, `CSType`,
  `Intent`) are kept as raw byte lists; the compression strings produced by
  `int_to_compression` from a fixed 7-entry table are modelled by the
  enumeration `Compression`.
* `f64::from(n).ceil()` applied to an already-divided integer `n` is the
  identity and is modelled as such (the integer division has already floored).
* In `get_dib_header`/`get_header` each struct field is initialised from a
  slice `contents[a..b]` whose failure (for a too-short buffer) is a panic;
  since every such slice succeeds exactly when the buffer reaches the largest
  end offset of the branch, the per-field panics are collapsed into one length
  guard per branch, which is behaviourally equivalent.
* The `while` loop of `fill_bucket` is modelled with a fuel parameter; fuel
  exhaustion is a distinguished failure that no theorem below identifies with
  any Rust behaviour.
-/

set_option maxRecDepth 4096

namespace BMPRust

deriving instance DecidableEq for Except

/-- The four variants of the Rust `ErrorKind` enum. -/
inductive ErrorKind
  | Unsupported
  | DoesNotExist
  | WrongFileType
  | UseExtraBitMasks
deriving DecidableEq

/-- The ways the Rust code can panic at runtime. -/
inductive PanicKind
  | addOverflow
  | subOverflow
  | mulOverflow
  | divByZero
  | indexOOB
  | unwrapNone
  | fuelOut
deriving DecidableEq

/-- Outcome of a fallible operation: a returned `ErrorKind` or a panic. -/
inductive Failure
  | err (e : ErrorKind)
  | panicked (p : PanicKind)
deriving DecidableEq

/-- Computations that can only panic (no `ErrorKind`). -/
abbrev P (α : Type) := Except PanicKind α

/-- Computations returning `Result<α, ErrorKind>` in Rust, panics included. -/
abbrev R (α : Type) := Except Failure α

def liftPanic {α : Type} : P α → R α
  | .ok a => .ok a
  | .error p => .error (.panicked p)

/-- `Option::unwrap`. -/
def unwrapO {α : Type} : Option α → R α
  | some a => .ok a
  | none => .error (.panicked .unwrapNone)

/-- `u16` addition, debug-profile semantics (overflow panics). -/
def u16add (a b : Nat) : P Nat :=
  if a + b < 65536 then .ok (a + b) else .error .addOverflow

/-- `u16` subtraction, debug-profile semantics (underflow panics). -/
def u16sub (a b : Nat) : P Nat :=
  if b ≤ a then .ok (a - b) else .error .subOverflow

/-- `u16` multiplication, debug-profile semantics (overflow panics). -/
def u16mul (a b : Nat) : P Nat :=
  if a * b < 65536 then .ok (a * b) else .error .mulOverflow

/-- `u32` subtraction, debug-profile semantics (underflow panics). -/
def u32sub (a b : Nat) : P Nat :=
  if b ≤ a then .ok (a - b) else .error .subOverflow

/-- Integer division; division by zero panics (in every Rust build profile). -/
def natDiv (a b : Nat) : P Nat :=
  if b = 0 then .error .divByZero else .ok (a / b)

/-- `i32 as u16`: two's-complement truncation to 16 bits (never panics). -/
def i32ToU16 (t : Int) : Nat := (t % 65536).toNat

/-- Indexing `contents[i]`; out of bounds panics. -/
def getByteP (c : List Nat) (i : Nat) : P Nat :=
  match c.get? i with
  | some b => .ok b
  | none => .error .indexOOB

/-- Slicing `contents[start..start+len]`; out of bounds panics. -/
def sliceP (c : List Nat) (start len : Nat) : P (List Nat) :=
  if start + len ≤ c.length then .ok ((c.drop start).take len) else .error .indexOOB

/-- In-place byte store `contents[i] = v`; out of bounds panics. -/
def setByteP (c : List Nat) (i v : Nat) : P (List Nat) :=
  if i < c.length then .ok (c.set i v) else .error .indexOOB

/-- `bytes_to_int`: little-endian `u32` at offset `i` (reads 0 past the end;
only used behind an explicit length guard, mirroring the slice panic). -/
def readU32At (c : List Nat) (i : Nat) : Nat :=
  c.getD i 0 + 256 * c.getD (i + 1) 0 + 65536 * c.getD (i + 2) 0 +
    16777216 * c.getD (i + 3) 0

/-- `two_bytes_to_int`: little-endian `u16` at offset `i`. -/
def readU16At (c : List Nat) (i : Nat) : Nat :=
  c.getD i 0 + 256 * c.getD (i + 1) 0

/-- `bytes_to_signed_int`: little-endian `i32` at offset `i`. -/
def readI32At (c : List Nat) (i : Nat) : Int :=
  let u := readU32At c i
  if u < 2147483648 then (u : Int) else (u : Int) - 4294967296

/-- `two_bytes_to_signed_int`: little-endian `i16` at offset `i`. -/
def readI16At (c : List Nat) (i : Nat) : Int :=
  let u := readU16At c i
  if u < 32768 then (u : Int) else (u : Int) - 65536

/-- Fallible little-endian `u32` read (the DIB-size slice at offset 14). -/
def readU32P (c : List Nat) (i : Nat) : P Nat :=
  if i + 4 ≤ c.length then .ok (readU32At c i) else .error .indexOOB

/-- The seven compression names of `int_to_compression`'s fixed table. -/
inductive Compression
  | BI_RGB
  | BI_RLE8
  | BI_RLE4
  | BI_BITFIELDS
  | BI_JPEG
  | BI_PNG
  | BI_ALPHABITFIELDS
deriving DecidableEq

/-- `int_to_compression`: the 7-entry table; a code outside 0..6 makes the
Rust `unwrap()` panic, hence `none` here. -/
def intToCompression (n : Nat) : Option Compression :=
  if n = 0 then some .BI_RGB
  else if n = 1 then some .BI_RLE8
  else if n = 2 then some .BI_RLE4
  else if n = 3 then some .BI_BITFIELDS
  else if n = 4 then some .BI_JPEG
  else if n = 5 then some .BI_PNG
  else if n = 6 then some .BI_ALPHABITFIELDS
  else none

/-- The Rust `BITMAPFILEHEADER` struct (`bfType` kept as raw bytes). -/
structure BITMAPFILEHEADER where
  bfType : List Nat
  bfSize : Nat
  bfReserved1 : List Nat
  bfReserved2 : List Nat
  bfOffBits : Nat
deriving DecidableEq

/-- `get_header` (with `get_header_bytes`): slices `contents[..14]`, then
`bfOffBits` is the 4-byte little-endian integer at 10..14 cast `as u16`. -/
def getHeader (c : List Nat) : R BITMAPFILEHEADER :=
  if 14 ≤ c.length then
    .ok { bfType := [c.getD 0 0, c.getD 1 0]
          bfSize := readU32At c 2
          bfReserved1 := [c.getD 6 0, c.getD 7 0]
          bfReserved2 := [c.getD 8 0, c.getD 9 0]
          bfOffBits := readU32At c 10 % 65536 }
  else .error (.panicked .indexOOB)

/-- `get_offset`. -/
def getOffset (c : List Nat) : R Nat :=
  (getHeader c).map BITMAPFILEHEADER.bfOffBits

/-- The Rust `DIBHEADER` struct: one record with `Option` fields, exactly as
in the source (the commented-out per-variant structs were not compiled). -/
structure DIBHEADER where
  size : Nat
  width : Nat
  height : Int
  planes : Nat
  bitcount : Nat
  compression : Option Compression
  sizeimage : Option Nat
  XPelsPerMeter : Option Nat
  YPelsPerMeter : Option Nat
  ClrUsed : Option Nat
  ClrImportant : Option Nat
  RedMask : Option Nat
  GreenMask : Option Nat
  BlueMask : Option Nat
  AlphaMask : Option Nat
  CSType : Option (List Nat)
  Endpoints : Option (List (List Int))
  GammaRed : Option Nat
  GammaGreen : Option Nat
  GammaBlue : Option Nat
  Intent : Option (List Nat)
  ProfileData : Option Nat
  ProfileSize : Option Nat
  Reserved : Option (List Nat)
deriving DecidableEq

/-- The `12 => BITMAPCOREHEADER` arm of `get_dib_header` (largest slice end:
offset 14+12 = 26). -/
def parseCore (c : List Nat) : P DIBHEADER :=
  if 26 ≤ c.length then
    .ok { size := 12
          width := readU16At c 18
          height := readI16At c 20
          planes := readU16At c 22
          bitcount := readU16At c 24
          compression := none, sizeimage := none
          XPelsPerMeter := none, YPelsPerMeter := none
          ClrUsed := none, ClrImportant := none
          RedMask := none, GreenMask := none, BlueMask := none
          AlphaMask := none, CSType := none, Endpoints := none
          GammaRed := none, GammaGreen := none, GammaBlue := none
          Intent := none, ProfileData := none, ProfileSize := none
          Reserved := none }
  else .error .indexOOB

/-- The `40 => BITMAPINFOHEADER` arm (largest slice end: 14+40 = 54). -/
def parseInfo (c : List Nat) : P DIBHEADER :=
  if 54 ≤ c.length then
    match intToCompression (readU32At c 30) with
    | none => .error .unwrapNone
    | some comp =>
      .ok { size := 40
            width := readU32At c 18
            height := readI32At c 22
            planes := readU16At c 26
            bitcount := readU16At c 28
            compression := some comp
            sizeimage := some (readU32At c 34)
            XPelsPerMeter := some (readU32At c 38)
            YPelsPerMeter := some (readU32At c 42)
            ClrUsed := some (readU32At c 46)
            ClrImportant := some (readU32At c 50)
            RedMask := none, GreenMask := none, BlueMask := none
            AlphaMask := none, CSType := none, Endpoints := none
            GammaRed := none, GammaGreen := none, GammaBlue := none
            Intent := none, ProfileData := none, ProfileSize := none
            Reserved := none }
  else .error .indexOOB

/-- The `108 => BITMAPV4HEADER` arm (largest slice end: 14+108 = 122). -/
def parseV4 (c : List Nat) : P DIBHEADER :=
  if 122 ≤ c.length then
    match intToCompression (readU32At c 30) with
    | none => .error .unwrapNone
    | some comp =>
      .ok { size := 108
            width := readU32At c 18
            height := readI32At c 22
            planes := readU16At c 26
            bitcount := readU16At c 28
            compression := some comp
            sizeimage := some (readU32At c 34)
            XPelsPerMeter := some (readU32At c 38)
            YPelsPerMeter := some (readU32At c 42)
            ClrUsed := some (readU32At c 46)
            ClrImportant := some (readU32At c 50)
            RedMask := some (readU32At c 54)
            GreenMask := some (readU32At c 58)
            BlueMask := some (readU32At c 62)
            AlphaMask := some (readU32At c 66)
            CSType := some [c.getD 70 0, c.getD 71 0, c.getD 72 0, c.getD 73 0]
            Endpoints := some
              [[readI32At c 74, readI32At c 78, readI32At c 82],
               [readI32At c 86, readI32At c 90, readI32At c 94],
               [readI32At c 98, readI32At c 102, readI32At c 106]]
            GammaRed := some (readU32At c 110)
            GammaGreen := some (readU32At c 114)
            GammaBlue := some (readU32At c 118)
            Intent := none, ProfileData := none, ProfileSize := none
            Reserved := none }
  else .error .indexOOB

/-- The `124 => BITMAPV5HEADER` arm (largest slice end: 14+124 = 138);
`ProfileData`/`ProfileSize` are 4-byte reads cast `as u16`. -/
def parseV5 (c : List Nat) : P DIBHEADER :=
  if 138 ≤ c.length then
    match intToCompression (readU32At c 30) with
    | none => .error .unwrapNone
    | some comp =>
      .ok { size := 124
            width := readU32At c 18
            height := readI32At c 22
            planes := readU16At c 26
            bitcount := readU16At c 28
            compression := some comp
            sizeimage := some (readU32At c 34)
            XPelsPerMeter := some (readU32At c 38)
            YPelsPerMeter := some (readU32At c 42)
            ClrUsed := some (readU32At c 46)
            ClrImportant := some (readU32At c 50)
            RedMask := some (readU32At c 54)
            GreenMask := some (readU32At c 58)
            BlueMask := some (readU32At c 62)
            AlphaMask := some (readU32At c 66)
            CSType := some [c.getD 70 0, c.getD 71 0, c.getD 72 0, c.getD 73 0]
            Endpoints := some
              [[readI32At c 74, readI32At c 78, readI32At c 82],
               [readI32At c 86, readI32At c 90, readI32At c 94],
               [readI32At c 98, readI32At c 102, readI32At c 106]]
            GammaRed := some (readU32At c 110)
            GammaGreen := some (readU32At c 114)
            GammaBlue := some (readU32At c 118)
            Intent := some [c.getD 122 0, c.getD 123 0, c.getD 124 0, c.getD 125 0]
            ProfileData := some (readU32At c 126 % 65536)
            ProfileSize := some (readU32At c 130 % 65536)
            Reserved := some [c.getD 134 0, c.getD 135 0, c.getD 136 0, c.getD 137 0] }
  else .error .indexOOB

/-- `get_dib_header`: reads the 4-byte size discriminant at offset 14 and
dispatches on it; any other value fails with `Unsupported`. -/
def getDibHeader (c : List Nat) : R DIBHEADER :=
  match readU32P c 14 with
  | .error p => .error (.panicked p)
  | .ok dibSize =>
    if dibSize = 12 then liftPanic (parseCore c)
    else if dibSize = 40 then liftPanic (parseInfo c)
    else if dibSize = 108 then liftPanic (parseV4 c)
    else if dibSize = 124 then liftPanic (parseV5 c)
    else .error (.err ErrorKind.Unsupported)

/-- The Rust `ColorTable` enum. -/
inductive ColorTable
  | RGBTRIPLE (v : List (List Nat))
  | RGBQUAD (v : List (List Nat))
deriving DecidableEq

/-- The RGBTRIPLE loop of `get_color_table`: entry `i` is the 3 bytes at
`offset + i*3 ..`, for `i` running from the first argument over `k` entries. -/
def rgbtripleFrom (c : List Nat) (off : Nat) : Nat → Nat → P (List (List Nat))
  | _, 0 => .ok []
  | i, k + 1 => do
    let b0 ← getByteP c (off + i * 3)
    let b1 ← getByteP c (off + i * 3 + 1)
    let b2 ← getByteP c (off + i * 3 + 2)
    let rest ← rgbtripleFrom c off (i + 1) k
    .ok ([b0, b1, b2] :: rest)

/-- The RGBQUAD loop of `get_color_table`: entry `i` is the 4 bytes at
`offset + i*4 ..`. -/
def rgbquadFrom (c : List Nat) (off : Nat) : Nat → Nat → P (List (List Nat))
  | _, 0 => .ok []
  | i, k + 1 => do
    let b0 ← getByteP c (off + i * 4)
    let b1 ← getByteP c (off + i * 4 + 1)
    let b2 ← getByteP c (off + i * 4 + 2)
    let b3 ← getByteP c (off + i * 4 + 3)
    let rest ← rgbquadFrom c off (i + 1) k
    .ok ([b0, b1, b2, b3] :: rest)

/-- `get_color_table`.  `offset = 14 + size` (`u16` addition that cannot
overflow for the four dispatched sizes), `end = bfOffBits`; the entry count is
`(end - offset) / entryWidth` with a `u16` subtraction that panics when
`end < offset`. -/
def getColorTable (c : List Nat) : R ColorTable :=
  match getDibHeader c with
  | .error e => .error e
  | .ok dib =>
    if dib.size = 12 then
      match getHeader c with
      | .error e => .error e
      | .ok hdr =>
        match u16sub hdr.bfOffBits (14 + dib.size) with
        | .error p => .error (.panicked p)
        | .ok diff =>
          liftPanic ((rgbtripleFrom c (14 + dib.size) 0 (diff / 3)).map ColorTable.RGBTRIPLE)
    else if dib.size = 40 ∨ dib.size = 108 ∨ dib.size = 124 then
      match getHeader c with
      | .error e => .error e
      | .ok hdr =>
        match dib.compression with
        | none => .error (.panicked .unwrapNone)
        | some comp =>
          if comp = Compression.BI_BITFIELDS ∧ (dib.bitcount = 16 ∨ dib.bitcount = 32) then
            .error (.err ErrorKind.UseExtraBitMasks)
          else if comp = Compression.BI_RGB ∧ 16 ≤ dib.bitcount then
            .error (.err ErrorKind.DoesNotExist)
          else
            match u16sub hdr.bfOffBits (14 + dib.size) with
            | .error p => .error (.panicked p)
            | .ok diff =>
              liftPanic ((rgbquadFrom c (14 + dib.size) 0 (diff / 4)).map ColorTable.RGBQUAD)
    else .error (.err ErrorKind.DoesNotExist)

/-- The row-stride computation of `get_pixel_data` (both height branches use
the same expression): `(bitcount as u16 * width as u16 / 32)` — a `u16`
multiplication (debug: panics on overflow) followed by integer division —
then `f64::from(..).ceil()`, which is the identity on the already-floored
quotient, `as u32 * 4`. -/
def rowLengthCode (bitcount width : Nat) : P Nat :=
  match u16mul bitcount (width % 65536) with
  | .error p => .error p
  | .ok m => .ok (m / 32 * 4)

def splitBits1 (byte : Nat) : List Nat :=
  [byte >>> 7, (byte &&& 64) >>> 6, (byte &&& 32) >>> 5, (byte &&& 16) >>> 4,
   (byte &&& 8) >>> 3, (byte &&& 4) >>> 2, (byte &&& 2) >>> 1, byte &&& 1]

def splitBits2 (byte : Nat) : List Nat :=
  [byte >>> 6, (byte &&& 48) >>> 4, (byte &&& 12) >>> 2, byte &&& 3]

def splitBits4 (byte : Nat) : List Nat :=
  [byte >>> 4, byte &&& 15]

/-- One `pixel` iteration of the row loop of `get_pixel_data`.  For
`bitcount < 8` the byte offset multiplier `((bitcount/8) as f64).ceil()` is
`0` (the integer division floors first), so `start` always points at the first
byte of the row; the split-bit index `pixel % (8/bitcount)` is `< 8`, so the
fixed-size array indexing cannot panic (`getD` is exact here).  A `bitcount`
below 8 other than 1/2/4 pushes nothing (`none`). -/
def buildPixel (c : List Nat) (off rl bc rowNum pixel : Nat) : P (Option (List Nat)) :=
  if 8 ≤ bc then
    match sliceP c (off + rowNum * rl + pixel * (bc / 8)) (bc / 8) with
    | .error e => .error e
    | .ok bytes => .ok (some bytes)
  else
    match getByteP c (off + rowNum * rl + pixel * (bc / 8)) with
    | .error e => .error e
    | .ok byte =>
      if bc = 1 then .ok (some [(splitBits1 byte).getD (pixel % (8 / bc)) 0])
      else if bc = 2 then .ok (some [(splitBits2 byte).getD (pixel % (8 / bc)) 0])
      else if bc = 4 then .ok (some [(splitBits4 byte).getD (pixel % (8 / bc)) 0])
      else .ok none

/-- The inner `for pixel in 0..width` loop, from pixel index `p` over `k`
remaining pixels. -/
def buildRowGo (c : List Nat) (off rl bc rowNum : Nat) : Nat → Nat → P (List (List Nat))
  | _, 0 => .ok []
  | p, k + 1 =>
    match buildPixel c off rl bc rowNum p with
    | .error e => .error e
    | .ok o =>
      match buildRowGo c off rl bc rowNum (p + 1) k with
      | .error e => .error e
      | .ok rest =>
        .ok (match o with
             | some bytes => bytes :: rest
             | none => rest)

/-- The outer `for row_num in 0..rows_num` loop, rows in file order. -/
def buildRowsGo (c : List Nat) (off rl bc w : Nat) : Nat → Nat → P (List (List (List Nat)))
  | _, 0 => .ok []
  | i, k + 1 =>
    match buildRowGo c off rl bc i 0 w with
    | .error e => .error e
    | .ok row =>
      match buildRowsGo c off rl bc w (i + 1) k with
      | .error e => .error e
      | .ok rest => .ok (row :: rest)

/-- The common body of both height branches of `get_pixel_data`: row stride,
`rows_num = (contents.len() as u32 - bfOffBits as u32) / row_length`
(`u32` subtraction, then a division that panics when the stride is 0), and the
row loop producing rows in file order. -/
def rowsOf (c : List Nat) (dib : DIBHEADER) (hdr : BITMAPFILEHEADER) :
    R (List (List (List Nat))) :=
  match rowLengthCode dib.bitcount dib.width with
  | .error p => .error (.panicked p)
  | .ok rl =>
    match u32sub c.length hdr.bfOffBits with
    | .error p => .error (.panicked p)
    | .ok diff =>
      match natDiv diff rl with
      | .error p => .error (.panicked p)
      | .ok rowsNum => liftPanic (buildRowsGo c hdr.bfOffBits rl dib.bitcount dib.width 0 rowsNum)

/-- `get_pixel_data`: negative height appends rows in file order
(`push_back`); positive height prepends them (`push_front`), i.e. reverses
the file order; height 0 takes neither branch and yields no rows. -/
def getPixelData (c : List Nat) : R (List (List (List Nat))) :=
  match getDibHeader c with
  | .error e => .error e
  | .ok dib =>
    match getHeader c with
    | .error e => .error e
    | .ok hdr =>
      if dib.height < 0 then rowsOf c dib hdr
      else if 0 < dib.height then (rowsOf c dib hdr).map List.reverse
      else .ok []

/-- Companion definition for the orientation claim: the pixel rows in the
order they are stored in the file (the `rows_num` loop of `get_pixel_data`
without the `push_front` reversal). -/
def pixelRowsFileOrder (c : List Nat) : R (List (List (List Nat))) :=
  match getDibHeader c with
  | .error e => .error e
  | .ok dib =>
    match getHeader c with
    | .error e => .error e
    | .ok hdr =>
      if dib.height = 0 then .ok [] else rowsOf c dib hdr

/-- Indexing `pixel[i]` of a per-pixel byte vector. -/
def pixAt (p : List Nat) (i : Nat) : R Nat :=
  match p.get? i with
  | some v => .ok v
  | none => .error (.panicked .indexOOB)

/-- The bit-depth dispatch of `get_color_of_px` on one extracted pixel.
Note the source bug kept verbatim: in both the 16-bit and the 32-bit
mask branches, `green_mask` and `blue_mask` are read from
`dib_header.RedMask`. -/
def resolvePixel (c : List Nat) (dib : DIBHEADER) (pixel : List Nat) : R (List Nat) :=
  if dib.bitcount = 16 then do
    let comp ← unwrapO dib.compression
    if comp = Compression.BI_BITFIELDS ∧ dib.RedMask.isSome = true ∧
        dib.GreenMask.isSome = true ∧ dib.BlueMask.isSome = true then do
      let redMask ← unwrapO dib.RedMask
      let _greenMask ← unwrapO dib.RedMask
      let blueMask ← unwrapO dib.RedMask
      if redMask < blueMask then do
        let v0 ← pixAt pixel 0
        let v1 ← pixAt pixel 1
        let v2 ← pixAt pixel 2
        .ok [v0, v1, v2, 255]
      else do
        let v2 ← pixAt pixel 2
        let v1 ← pixAt pixel 1
        let v0 ← pixAt pixel 0
        .ok [v2, v1, v0, 255]
    else
      .ok [0, 0, 0, 255]
  else if dib.bitcount = 24 then do
    let v2 ← pixAt pixel 2
    let v1 ← pixAt pixel 1
    let v0 ← pixAt pixel 0
    .ok [v2, v1, v0, 255]
  else if dib.bitcount = 32 then do
    let comp ← unwrapO dib.compression
    if (comp = Compression.BI_BITFIELDS ∨ comp = Compression.BI_ALPHABITFIELDS) ∧
        dib.RedMask.isSome = true ∧ dib.GreenMask.isSome = true ∧
        dib.BlueMask.isSome = true then do
      let redMask ← unwrapO dib.RedMask
      let _greenMask ← unwrapO dib.RedMask
      let blueMask ← unwrapO dib.RedMask
      let alphaMask ← unwrapO dib.AlphaMask
      if alphaMask < redMask then
        if redMask < blueMask then do
          let v1 ← pixAt pixel 1
          let v2 ← pixAt pixel 2
          let v3 ← pixAt pixel 3
          let v0 ← pixAt pixel 0
          .ok [v1, v2, v3, v0]
        else do
          let v3 ← pixAt pixel 3
          let v2 ← pixAt pixel 2
          let v1 ← pixAt pixel 1
          let v0 ← pixAt pixel 0
          .ok [v3, v2, v1, v0]
      else
        if redMask < blueMask then do
          let v0 ← pixAt pixel 0
          let v1 ← pixAt pixel 1
          let v2 ← pixAt pixel 2
          let v3 ← pixAt pixel 3
          .ok [v0, v1, v2, v3]
        else do
          let v2 ← pixAt pixel 2
          let v1 ← pixAt pixel 1
          let v0 ← pixAt pixel 0
          let v3 ← pixAt pixel 3
          .ok [v2, v1, v0, v3]
    else do
      let v0 ← pixAt pixel 0
      let v1 ← pixAt pixel 1
      let v2 ← pixAt pixel 2
      let v3 ← pixAt pixel 3
      .ok [v0, v1, v2, v3]
  else do
    let ct ← getColorTable c
    let index ←
      if dib.bitcount = 16 then
        -- dead code (bitcount 16 is handled above); `vec_to_2u8_array` zero-pads
        -- up to 2 bytes and panics when given more
        if pixel.length ≤ 2 then .ok (pixel.getD 0 0 + 256 * pixel.getD 1 0)
        else .error (.panicked .indexOOB)
      else
        pixAt pixel 0
    match ct with
    | .RGBTRIPLE v =>
      match v.get? index with
      | some rgb => .ok (rgb ++ [255])
      | none => .error (.panicked .indexOOB)
    | .RGBQUAD v =>
      match v.get? index with
      | some q => .ok q
      | none => .error (.panicked .indexOOB)

/-- `get_color_of_px`: parse headers, build the whole grid, index it at
`[y][x]` (out of range panics), then resolve the raw sample. -/
def getColorOfPx (c : List Nat) (x y : Nat) : R (List Nat) :=
  match getDibHeader c with
  | .error e => .error e
  | .ok dib =>
    match getPixelData c with
    | .error e => .error e
    | .ok pd =>
      match pd.get? y with
      | none => .error (.panicked .indexOOB)
      | some row =>
        match row.get? x with
        | none => .error (.panicked .indexOOB)
        | some pixel => resolvePixel c dib pixel

/-- The row-stride computation of `change_color_of_pixel`:
`((bitcount/8) as u16 * width as u16 / 4)` with a `u16` multiplication,
`f64` ceil of the floored quotient (identity), `as u32 * 4`, then `as u16`. -/
def changeRowLength (bitcount width : Nat) : P Nat :=
  match u16mul (bitcount / 8) (width % 65536) with
  | .error p => .error p
  | .ok m => .ok (m / 4 * 4 % 65536)

/-- Three sequential byte stores at `start`, `start+1`, `start+2` (the index
increments are `u16` additions). -/
def write3 (c0 : List Nat) (start v2 v1 v0 : Nat) : R (List Nat) := do
  let c1 ← liftPanic (setByteP c0 start v2)
  let i1 ← liftPanic (u16add start 1)
  let c2 ← liftPanic (setByteP c1 i1 v1)
  let i2 ← liftPanic (u16add start 2)
  let c3 ← liftPanic (setByteP c2 i2 v0)
  .ok c3

/-- Four sequential byte stores at `start` .. `start+3`. -/
def write4 (c0 : List Nat) (start w0 w1 w2 w3 : Nat) : R (List Nat) := do
  let c1 ← liftPanic (setByteP c0 start w0)
  let i1 ← liftPanic (u16add start 1)
  let c2 ← liftPanic (setByteP c1 i1 w1)
  let i2 ← liftPanic (u16add start 2)
  let c3 ← liftPanic (setByteP c2 i2 w2)
  let i3 ← liftPanic (u16add start 3)
  let c4 ← liftPanic (setByteP c3 i3 w3)
  .ok c4

/-- `change_color_of_pixel` (`x`, `y` are `u16` in the source; callers pass
values `< 2^16`).  Depths other than 24/32 fail with `Unsupported`; positive
height re-maps `y` to `height as u16 - y` (`u16` subtraction); the byte offset
is computed entirely in `u16` arithmetic.  In the 32-bit branch `green_mask`
and `blue_mask` are again read from `dib_header.RedMask` (source bug kept),
so `red_mask < blue_mask` is always false there. -/
def changeColorOfPixel (c : List Nat) (x y : Nat) (newColor : List Nat) : R (List Nat) :=
  match getDibHeader c with
  | .error e => .error e
  | .ok dib =>
    match getHeader c with
    | .error e => .error e
    | .ok hdr =>
      if dib.bitcount ≠ 24 ∧ dib.bitcount ≠ 32 then .error (.err ErrorKind.Unsupported)
      else
        match (if 0 < dib.height then u16sub (i32ToU16 dib.height) y else .ok y) with
        | .error p => .error (.panicked p)
        | .ok y2 =>
          match changeRowLength dib.bitcount dib.width with
          | .error p => .error (.panicked p)
          | .ok rl =>
            match u16mul y2 rl with
            | .error p => .error (.panicked p)
            | .ok t1 =>
              match u16add t1 hdr.bfOffBits with
              | .error p => .error (.panicked p)
              | .ok t2 =>
                match u16mul (dib.bitcount / 8) x with
                | .error p => .error (.panicked p)
                | .ok t3 =>
                  match u16add t2 t3 with
                  | .error p => .error (.panicked p)
                  | .ok start =>
                    if dib.bitcount = 24 then
                      write3 c start (newColor.getD 2 0) (newColor.getD 1 0) (newColor.getD 0 0)
                    else if dib.bitcount = 32 then
                      match dib.RedMask with
                      | none => .error (.panicked .unwrapNone)
                      | some redMask =>
                        match dib.AlphaMask with
                        | none => .error (.panicked .unwrapNone)
                        | some alphaMask =>
                          let blueMask := redMask
                          if alphaMask < redMask then
                            if redMask < blueMask then
                              write4 c start (newColor.getD 3 0) (newColor.getD 0 0)
                                (newColor.getD 1 0) (newColor.getD 2 0)
                            else
                              write4 c start (newColor.getD 3 0) (newColor.getD 2 0)
                                (newColor.getD 1 0) (newColor.getD 0 0)
                          else
                            if redMask < blueMask then
                              write4 c start (newColor.getD 0 0) (newColor.getD 1 0)
                                (newColor.getD 2 0) (newColor.getD 3 0)
                            else
                              write4 c start (newColor.getD 2 0) (newColor.getD 1 0)
                                (newColor.getD 0 0) (newColor.getD 3 0)
                    else .ok c

/-- One dequeue step's neighbour expansion in `fill_bucket`: for the head
coordinate, check down / up / left / right in that order.  Each check first
computes the neighbour coordinate in `u16` arithmetic (`y2+1`, `y2-1`, `x2-1`,
`x2+1` — the subtractions underflow-panic at 0 in a debug build), compares it
against `height as u16` / `width as u16` / `0`, reads the neighbour's colour,
and enqueues it when the colour equals the seed colour.  The new queue is the
old tail followed by the pushes. -/
def expandNeighbors (c : List Nat) (dib : DIBHEADER) (rc : List Nat)
    (q0 : Nat × Nat) (qrest : List (Nat × Nat)) : R (List (Nat × Nat)) := do
  let x2 := q0.1
  let y2 := q0.2
  let s1 ← liftPanic (u16add y2 1)
  let push1 ←
    if s1 < i32ToU16 dib.height then do
      let downColor ← getColorOfPx c x2 s1
      if downColor = rc then pure [(x2, s1)] else pure []
    else pure ([] : List (Nat × Nat))
  let s2 ← liftPanic (u16sub y2 1)
  let push2 ←
    if 0 < s2 then do
      let upColor ← getColorOfPx c x2 s2
      if upColor = rc then pure [(x2, s2)] else pure []
    else pure ([] : List (Nat × Nat))
  let s3 ← liftPanic (u16sub x2 1)
  let push3 ←
    if 0 < s3 then do
      let leftColor ← getColorOfPx c s3 y2
      if leftColor = rc then pure [(s3, y2)] else pure []
    else pure ([] : List (Nat × Nat))
  let s4 ← liftPanic (u16add x2 1)
  let push4 ←
    if s4 < dib.width % 65536 then do
      let rightColor ← getColorOfPx c s4 y2
      if rightColor = rc then pure [(s4, y2)] else pure []
    else pure ([] : List (Nat × Nat))
  .ok (qrest ++ push1 ++ push2 ++ push3 ++ push4)

/-- The `while queue.len() > 0` loop of `fill_bucket`, with fuel.  A head that
is already in `visited` is dropped; otherwise its neighbours are expanded and
it is appended to `visited`. -/
def fillBucketLoop (c : List Nat) (dib : DIBHEADER) (rc : List Nat) :
    Nat → List (Nat × Nat) → List (Nat × Nat) → R (List (Nat × Nat))
  | 0, _, _ => .error (.panicked .fuelOut)
  | _ + 1, visited, [] => .ok visited
  | fuel + 1, visited, q0 :: qrest =>
    if q0 ∈ visited then fillBucketLoop c dib rc fuel visited qrest
    else
      match expandNeighbors c dib rc q0 qrest with
      | .error e => .error e
      | .ok queue2 => fillBucketLoop c dib rc fuel (visited ++ [q0]) queue2

/-- The final pass of `fill_bucket`: every visited coordinate is written at
`y + 1` (`u16` addition; the source comments call this shift an unexplained
empirical fix).  The `Result` of `change_color_of_pixel` is discarded in the
source, so a clean `ErrorKind` leaves the buffer unchanged and the pass
continues, while a panic propagates. -/
def fillFinal (c fill : List Nat) : List (Nat × Nat) → R (List Nat)
  | [] => .ok c
  | px :: rest =>
    match u16add px.2 1 with
    | .error p => .error (.panicked p)
    | .ok y1 =>
      match changeColorOfPixel c px.1 y1 fill with
      | .ok c2 => fillFinal c2 fill rest
      | .error (.err _) => fillFinal c fill rest
      | .error (.panicked p) => .error (.panicked p)

/-- Fuel for the flood-fill loop: far more iterations than distinct `u16`
coordinate pairs, so a terminating Rust run is never cut short. -/
def fillFuel : Nat := 4294967296

/-- `fill_bucket`: capture the seed colour, run the traversal from
`[x as u16, y as u16]`, then recolour the visited coordinates; returns the
mutated buffer together with the visited list. -/
def fillBucket (c fill : List Nat) (x y : Nat) : R (List Nat × List (Nat × Nat)) :=
  match getDibHeader c with
  | .error e => .error e
  | .ok dib =>
    match getColorOfPx c x y with
    | .error e => .error e
    | .ok rc =>
      match fillBucketLoop c dib rc fillFuel [] [(x % 65536, y % 65536)] with
      | .error e => .error e
      | .ok visited =>
        match fillFinal c fill visited with
        | .error e => .error e
        | .ok c2 => .ok (c2, visited)

/-- Projection to the visited list of a `fill_bucket` result. -/
def visitedOf : R (List Nat × List (Nat × Nat)) → List (Nat × Nat)
  | .ok r => r.2
  | .error _ => []

/-- Whether a `fill_bucket` result is `Ok`. -/
def isOkR : R (List Nat × List (Nat × Nat)) → Bool
  | .ok _ => true
  | .error _ => false

/-- The row stride as the specification states it:
`4 * ceil(bitcount * width / 32)` (spec-side definition, for comparison with
`rowLengthCode`). -/
def strideSpec (bitcount width : Nat) : Nat :=
  4 * ((bitcount * width + 31) / 32)

/-- The four DIB header shapes named by the specification. -/
inductive Shape
  | Core
  | Info
  | V4
  | V5
deriving DecidableEq

/-- The shape the specification assigns to each size discriminant. -/
def shapeOfSize (n : Nat) : Option Shape :=
  if n = 12 then some .Core
  else if n = 40 then some .Info
  else if n = 108 then some .V4
  else if n = 124 then some .V5
  else none

/-- Classify a parsed `DIBHEADER` record by which optional fields are
populated: `Core` has none of them, `Info` has the compression block only,
`V4` adds masks/colour-space/endpoints/gamma, `V5` additionally carries
intent/profile/reserved. -/
def shapeOf (d : DIBHEADER) : Option Shape :=
  if d.compression = none ∧ d.sizeimage = none ∧ d.XPelsPerMeter = none ∧
      d.YPelsPerMeter = none ∧ d.ClrUsed = none ∧ d.ClrImportant = none ∧
      d.RedMask = none ∧ d.GreenMask = none ∧ d.BlueMask = none ∧
      d.AlphaMask = none ∧ d.CSType = none ∧ d.Endpoints = none ∧
      d.GammaRed = none ∧ d.GammaGreen = none ∧ d.GammaBlue = none ∧
      d.Intent = none ∧ d.ProfileData = none ∧ d.ProfileSize = none ∧
      d.Reserved = none then some .Core
  else if d.compression ≠ none ∧ d.sizeimage ≠ none ∧ d.XPelsPerMeter ≠ none ∧
      d.YPelsPerMeter ≠ none ∧ d.ClrUsed ≠ none ∧ d.ClrImportant ≠ none ∧
      d.RedMask = none ∧ d.GreenMask = none ∧ d.BlueMask = none ∧
      d.AlphaMask = none ∧ d.CSType = none ∧ d.Endpoints = none ∧
      d.GammaRed = none ∧ d.GammaGreen = none ∧ d.GammaBlue = none ∧
      d.Intent = none ∧ d.ProfileData = none ∧ d.ProfileSize = none ∧
      d.Reserved = none then some .Info
  else if d.compression ≠ none ∧ d.sizeimage ≠ none ∧ d.XPelsPerMeter ≠ none ∧
      d.YPelsPerMeter ≠ none ∧ d.ClrUsed ≠ none ∧ d.ClrImportant ≠ none ∧
      d.RedMask ≠ none ∧ d.GreenMask ≠ none ∧ d.BlueMask ≠ none ∧
      d.AlphaMask ≠ none ∧ d.CSType ≠ none ∧ d.Endpoints ≠ none ∧
      d.GammaRed ≠ none ∧ d.GammaGreen ≠ none ∧ d.GammaBlue ≠ none ∧
      d.Intent = none ∧ d.ProfileData = none ∧ d.ProfileSize = none ∧
      d.Reserved = none then some .V4
  else if d.compression ≠ none ∧ d.sizeimage ≠ none ∧ d.XPelsPerMeter ≠ none ∧
      d.YPelsPerMeter ≠ none ∧ d.ClrUsed ≠ none ∧ d.ClrImportant ≠ none ∧
      d.RedMask ≠ none ∧ d.GreenMask ≠ none ∧ d.BlueMask ≠ none ∧
      d.AlphaMask ≠ none ∧ d.CSType ≠ none ∧ d.Endpoints ≠ none ∧
      d.GammaRed ≠ none ∧ d.GammaGreen ≠ none ∧ d.GammaBlue ≠ none ∧
      d.Intent ≠ none ∧ d.ProfileData ≠ none ∧ d.ProfileSize ≠ none ∧
      d.Reserved ≠ none then some .V5
  else none

/-- How `get_dib_header`'s result must look for a given discriminant shape:
an unrecognised discriminant must fail `Unsupported`; a recognised one either
panics while parsing (short buffer / unknown compression code) or yields a
record of exactly the selected shape — it never returns a clean `ErrorKind`. -/
def dispatchesTo (r : R DIBHEADER) (s : Option Shape) : Prop :=
  match s with
  | none => r = .error (.err ErrorKind.Unsupported)
  | some sh =>
    match r with
    | .ok d => shapeOf d = some sh
    | .error (.panicked _) => True
    | .error (.err _) => False

/-! ### Concrete buffers used as fixtures -/

/-- Little-endian 2-byte encoding. -/
def le16 (n : Nat) : List Nat := [n % 256, n / 256 % 256]

/-- Little-endian 4-byte encoding. -/
def le32 (n : Nat) : List Nat :=
  [n % 256, n / 256 % 256, n / 65536 % 256, n / 16777216 % 256]

/-- A 14-byte BMP file header with the given declared size and pixel offset. -/
def fileHeaderBytes (fileSize offBits : Nat) : List Nat :=
  [66, 77] ++ le32 fileSize ++ [0, 0] ++ [0, 0] ++ le32 offBits

/-- A 40-byte Info DIB header (planes 1, remaining fields 0). -/
def infoHeaderBytes (width heightN bitcount compression : Nat) : List Nat :=
  le32 40 ++ le32 width ++ le32 heightN ++ le16 1 ++ le16 bitcount ++
    le32 compression ++ le32 0 ++ le32 0 ++ le32 0 ++ le32 0 ++ le32 0

/-- A 108-byte V4 DIB header with explicit channel masks. -/
def v4HeaderBytes (width heightN bitcount compression rMask gMask bMask aMask : Nat) :
    List Nat :=
  le32 108 ++ le32 width ++ le32 heightN ++ le16 1 ++ le16 bitcount ++
    le32 compression ++ le32 0 ++ le32 0 ++ le32 0 ++ le32 0 ++ le32 0 ++
    le32 rMask ++ le32 gMask ++ le32 bMask ++ le32 aMask ++ le32 0 ++
    List.replicate 36 0 ++ le32 0 ++ le32 0 ++ le32 0

/-- The claim's minimal 1×1 24-bit BMP: 14-byte file header (offset 54),
40-byte Info header, one padded pixel row `[10, 20, 30, 0]`; 58 bytes. -/
def buf1 : List Nat :=
  fileHeaderBytes 58 54 ++ infoHeaderBytes 1 1 24 0 ++ [10, 20, 30, 0]

/-- A 4×2 24-bit bottom-up image, all pixel bytes 0; 78 bytes. -/
def buf3 : List Nat :=
  fileHeaderBytes 78 54 ++ infoHeaderBytes 4 2 24 0 ++ List.replicate 24 0

/-- A 1×2 32-bit bottom-up image whose file rows are `[1,1,1,1]` then
`[2,2,2,2]`; 62 bytes. -/
def buf4 : List Nat :=
  fileHeaderBytes 62 54 ++ infoHeaderBytes 1 2 32 0 ++ [1, 1, 1, 1] ++ [2, 2, 2, 2]

/-- A 1×1 32-bit V4 image, compression BITFIELDS, standard masks
(R `0x00FF0000`, G `0x0000FF00`, B `0x000000FF`, A `0xFF000000`), pixel file
bytes `[5, 6, 7, 8]`; 126 bytes. -/
def buf5 : List Nat :=
  fileHeaderBytes 126 122 ++ v4HeaderBytes 1 1 32 3 16711680 65280 255 4278190080 ++
    [5, 6, 7, 8]

/-- A 1×1 32-bit Info image with compression BITFIELDS and a trailing
extra-bit-masks block (pixel offset 66); 70 bytes. -/
def buf7 : List Nat :=
  fileHeaderBytes 70 66 ++ infoHeaderBytes 1 1 32 3 ++ le32 16711680 ++
    le32 65280 ++ le32 255 ++ [0, 0, 0, 0]

/-- A 2×2 32-bit uniformly coloured image (every pixel `[7,7,7,7]`);
70 bytes. -/
def buf8U : List Nat :=
  fileHeaderBytes 70 54 ++ infoHeaderBytes 2 2 32 0 ++ List.replicate 16 7

/-- A 2×2 32-bit checkerboard: grid (0,0) and (1,1) are `[7,7,7,7]`, the other
two pixels `[3,3,3,3]`; 70 bytes. -/
def buf8C : List Nat :=
  fileHeaderBytes 70 54 ++ infoHeaderBytes 2 2 32 0 ++
    ([3, 3, 3, 3] ++ [7, 7, 7, 7] ++ [7, 7, 7, 7] ++ [3, 3, 3, 3])

/-- A bare 14-byte file header whose pixel-offset field holds 65536. -/
def buf9 : List Nat := [66, 77, 0, 0, 0, 0, 0, 0, 0, 0] ++ le32 65536

/-- A 3×3 32-bit V4 image (compression RGB, masks present), every pixel 0
except the grid pixel (1,1) which is `[9,9,9,9]`; 158 bytes. -/
def buf10 : List Nat :=
  fileHeaderBytes 158 122 ++ v4HeaderBytes 3 3 32 0 16711680 65280 255 4278190080 ++
    (List.replicate 12 0 ++ ([0, 0, 0, 0] ++ [9, 9, 9, 9] ++ [0, 0, 0, 0]) ++
      List.replicate 12 0)

/-! ### Helper lemmas -/

theorem parseCore_shape (c : List Nat) (d : DIBHEADER) (h : parseCore c = .ok d) :
    shapeOf d = some Shape.Core := by
  unfold parseCore at h
  by_cases hl : 26 ≤ c.length
  · rw [if_pos hl] at h
    injection h with h
    subst h
    rfl
  · rw [if_neg hl] at h
    exact absurd h (by simp)

theorem parseInfo_shape (c : List Nat) (d : DIBHEADER) (h : parseInfo c = .ok d) :
    shapeOf d = some Shape.Info := by
  unfold parseInfo at h
  by_cases hl : 54 ≤ c.length
  · rw [if_pos hl] at h
    cases hk : intToCompression (readU32At c 30) with
    | none => rw [hk] at h; exact absurd h (by simp)
    | some comp =>
      rw [hk] at h
      injection h with h
      subst h
      rfl
  · rw [if_neg hl] at h
    exact absurd h (by simp)

theorem parseV4_shape (c : List Nat) (d : DIBHEADER) (h : parseV4 c = .ok d) :
    shapeOf d = some Shape.V4 := by
  unfold parseV4 at h
  by_cases hl : 122 ≤ c.length
  · rw [if_pos hl] at h
    cases hk : intToCompression (readU32At c 30) with
    | none => rw [hk] at h; exact absurd h (by simp)
    | some comp =>
      rw [hk] at h
      injection h with h
      subst h
      rfl
  · rw [if_neg hl] at h
    exact absurd h (by simp)

theorem parseV5_shape (c : List Nat) (d : DIBHEADER) (h : parseV5 c = .ok d) :
    shapeOf d = some Shape.V5 := by
  unfold parseV5 at h
  by_cases hl : 138 ≤ c.length
  · rw [if_pos hl] at h
    cases hk : intToCompression (readU32At c 30) with
    | none => rw [hk] at h; exact absurd h (by simp)
    | some comp =>
      rw [hk] at h
      injection h with h
      subst h
      rfl
  · rw [if_neg hl] at h
    exact absurd h (by simp)

theorem fillLoop_nodup (c : List Nat) (dib : DIBHEADER) (rc : List Nat) :
    ∀ (fuel : Nat) (v q out : List (Nat × Nat)), v.Nodup →
      fillBucketLoop c dib rc fuel v q = .ok out → out.Nodup := by
  intro fuel
  induction fuel with
  | zero =>
    intro v q out _ h
    simp [fillBucketLoop] at h
  | succ n ih =>
    intro v q out hv h
    cases q with
    | nil =>
      simp only [fillBucketLoop] at h
      injection h with h
      exact h ▸ hv
    | cons q0 qrest =>
      by_cases hq : q0 ∈ v
      · simp only [fillBucketLoop, if_pos hq] at h
        exact ih v qrest out hv h
      · simp only [fillBucketLoop, if_neg hq] at h
        cases he : expandNeighbors c dib rc q0 qrest with
        | error e =>
          rw [he] at h
          exact absurd h (by simp)
        | ok q2 =>
          rw [he] at h
          refine ih (v ++ [q0]) q2 out ?_ h
          simp [List.nodup_append, hv, hq]

/-! ### Claim theorems -/

/-- Claim C1 (code bug): on the claim's minimal 1×1 24-bit BMP the decoder
does not produce a 1×1 grid resolving to `[30, 20, 10, 255]`.  The row stride
`(24 * 1 / 32).ceil() * 4` is 0 because the integer division floors before
`ceil`, so `rows_num = (58 - 54) / 0` panics with a division by zero, and
`get_color_of_px(0, 0)` propagates that panic. -/
theorem minimal_bmp_decode_divides_by_zero :
    rowLengthCode 24 1 = .ok 0 ∧
    getPixelData buf1 = .error (.panicked .divByZero) ∧
    getColorOfPx buf1 0 0 = .error (.panicked .divByZero) := by decide

/-- Claim C2 (code bug): the row stride used by `get_pixel_data` is
`4 * floor(bitcount * width / 32)`, not the spec's
`4 * ceil(bitcount * width / 32)`: the source converts the already-floored
integer quotient to `f64` before calling `ceil`.  At the claim's three sample
points the code yields 8, 0, 0 where the claim requires 12, 4, 4. -/
theorem row_stride_floor_not_ceil :
    rowLengthCode 24 3 = .ok 8 ∧ strideSpec 24 3 = 12 ∧
    rowLengthCode 1 1 = .ok 0 ∧ strideSpec 1 1 = 4 ∧
    rowLengthCode 1 16 = .ok 0 ∧ strideSpec 1 16 = 4 ∧
    (8 : Nat) ≠ 12 := by decide

/-- Claim C3 (code bug): the 24-bit write/read round trip fails on a 4×2
bottom-up image.  `change_color_of_pixel` maps visual row `y` to file row
`height - y` instead of `height - 1 - y`, so after writing `[30,20,10,255]`
at (0, 1), reading (0, 1) still returns the old colour `[0,0,0,255]` and the
written colour surfaces one grid row higher, at (0, 0). -/
theorem write_read_round_trip_off_by_one :
    (changeColorOfPixel buf3 0 1 [30, 20, 10, 255]).bind
      (fun c2 => getColorOfPx c2 0 1) = .ok [0, 0, 0, 255] ∧
    (changeColorOfPixel buf3 0 1 [30, 20, 10, 255]).bind
      (fun c2 => getColorOfPx c2 0 0) = .ok [30, 20, 10, 255] ∧
    ([0, 0, 0, 255] : List Nat) ≠ [30, 20, 10, 255] := by decide

/-- Claim C8 (code bug): `fill_bucket` seeded at (0, 0) panics on every 2×2
image — uniform and checkerboard alike — instead of returning a visited list:
processing the seed evaluates the `u16` expression `y2 - 1` with `y2 = 0`,
which underflows (debug panic; a release build wraps to 65535 and the
subsequent row lookup panics out of bounds). -/
theorem fill_bucket_seed_underflow :
    fillBucket buf8U [1, 2, 3, 4] 0 0 = .error (.panicked .subOverflow) ∧
    fillBucket buf8C [1, 2, 3, 4] 0 0 = .error (.panicked .subOverflow) := by decide

/-- Claim C9: for every buffer of length at least 14, `get_header` stores the
pixel-data offset narrowed to 16 bits — `bfOffBits` (and hence the offset
`get_offset` hands to every downstream component) is the little-endian `u32`
at bytes 10..13 reduced modulo 2^16. -/
theorem offbits_truncated_u16 (c : List Nat) (h : 14 ≤ c.length) :
    (getHeader c).map BITMAPFILEHEADER.bfOffBits = .ok (readU32At c 10 % 65536) ∧
    getOffset c = .ok (readU32At c 10 % 65536) := by
  unfold getOffset getHeader
  rw [if_pos h]
  exact ⟨rfl, rfl⟩

/-- Witness for C9: a 14-byte header whose offset field holds 65536 is
truncated to 0. -/
theorem offbits_truncated_u16_witness :
    (getHeader buf9).map BITMAPFILEHEADER.bfOffBits = .ok 0 ∧ getOffset buf9 = .ok 0 := by
  have h := offbits_truncated_u16 buf9 (by decide)
  have e : readU32At buf9 10 % 65536 = 0 := by decide
  rw [e] at h
  exact h

/-- Claim C4: for every image, grid row 0 of `get_pixel_data` is the first
file-stored row when the header height is negative, and the last file-stored
row (rows are prepended) when the height is positive — so row 0 is the top
visual row regardless of the height's sign. -/
theorem grid_row_zero_orientation (c : List Nat) (t : Int)
    (g f : List (List (List Nat)))
    (h1 : (getDibHeader c).map DIBHEADER.height = .ok t)
    (h2 : getPixelData c = .ok g)
    (h3 : pixelRowsFileOrder c = .ok f) :
    (t < 0 → g.head? = f.head?) ∧ (0 < t → g.head? = f.getLast?) := by
  cases hd : getDibHeader c with
  | error e =>
    rw [hd] at h1
    simp [Except.map] at h1
  | ok dib =>
    rw [hd] at h1
    simp only [Except.map] at h1
    injection h1 with h1
    subst h1
    simp only [getPixelData, hd] at h2
    simp only [pixelRowsFileOrder, hd] at h3
    cases hh : getHeader c with
    | error e =>
      simp [hh] at h2
    | ok hdr =>
      simp only [hh] at h2 h3
      by_cases hneg : dib.height < 0
      · rw [if_pos hneg] at h2
        rw [if_neg (by omega)] at h3
        rw [h2] at h3
        injection h3 with h3
        subst h3
        exact ⟨fun _ => rfl, fun hpos => absurd hpos (by omega)⟩
      · by_cases hpos : 0 < dib.height
        · rw [if_neg hneg, if_pos hpos] at h2
          rw [if_neg (by omega)] at h3
          cases hro : rowsOf c dib hdr with
          | error e =>
            rw [hro] at h2
            simp [Except.map] at h2
          | ok rs =>
            rw [hro] at h2 h3
            simp only [Except.map] at h2
            injection h2 with h2
            injection h3 with h3
            refine ⟨fun hlt => absurd hlt (by omega), fun _ => ?_⟩
            rw [← h2, ← h3]
            exact List.head?_reverse rs
        · exact ⟨fun hlt => absurd hlt (by omega), fun hp2 => absurd hp2 (by omega)⟩

/-- Witness for C4: on the 1×2 bottom-up image `buf4`, grid row 0 is the last
row stored in the file. -/
theorem grid_row_zero_orientation_witness :
    ((2 : Int) < 0 →
      ([[[2, 2, 2, 2]], [[1, 1, 1, 1]]] : List (List (List Nat))).head? =
        ([[[1, 1, 1, 1]], [[2, 2, 2, 2]]] : List (List (List Nat))).head?) ∧
    ((0 : Int) < 2 →
      ([[[2, 2, 2, 2]], [[1, 1, 1, 1]]] : List (List (List Nat))).head? =
        ([[[1, 1, 1, 1]], [[2, 2, 2, 2]]] : List (List (List Nat))).getLast?) :=
  grid_row_zero_orientation buf4 2 [[[2, 2, 2, 2]], [[1, 1, 1, 1]]]
    [[[1, 1, 1, 1]], [[2, 2, 2, 2]]] (by decide) (by decide) (by decide)

/-- Claim C5: for every 32-bit image whose compression is BITFIELDS or
ALPHABITFIELDS and whose header masks are R `0x00FF0000`, G `0x0000FF00`,
B `0x000000FF`, A `0xFF000000`, a pixel stored as file bytes `[b, g, r, a]`
resolves through `get_color_of_px` to RGBA `[r, g, b, a]`. -/
theorem masked_32bit_channel_order (c : List Nat) (x y b g r a : Nat)
    (h1 : (getDibHeader c).map DIBHEADER.bitcount = .ok 32)
    (h2 : (getDibHeader c).map DIBHEADER.compression = .ok (some Compression.BI_BITFIELDS) ∨
          (getDibHeader c).map DIBHEADER.compression = .ok (some Compression.BI_ALPHABITFIELDS))
    (h3 : (getDibHeader c).map DIBHEADER.RedMask = .ok (some 16711680))
    (h4 : (getDibHeader c).map DIBHEADER.GreenMask = .ok (some 65280))
    (h5 : (getDibHeader c).map DIBHEADER.BlueMask = .ok (some 255))
    (h6 : (getDibHeader c).map DIBHEADER.AlphaMask = .ok (some 4278190080))
    (h7 : (getPixelData c).map (fun pd => (pd.get? y).bind (fun row => row.get? x)) =
      .ok (some [b, g, r, a])) :
    getColorOfPx c x y = .ok [r, g, b, a] := by
  cases hd : getDibHeader c with
  | error e =>
    rw [hd] at h1
    simp [Except.map] at h1
  | ok dib =>
    rw [hd] at h1 h3 h4 h5 h6
    simp only [Except.map] at h1 h3 h4 h5 h6
    injection h1 with h1
    injection h3 with h3
    injection h4 with h4
    injection h5 with h5
    injection h6 with h6
    have hcomp : dib.compression = some Compression.BI_BITFIELDS ∨
        dib.compression = some Compression.BI_ALPHABITFIELDS := by
      rcases h2 with h2 | h2
      · rw [hd] at h2
        simp only [Except.map] at h2
        injection h2 with h2
        exact Or.inl h2
      · rw [hd] at h2
        simp only [Except.map] at h2
        injection h2 with h2
        exact Or.inr h2
    cases hp : getPixelData c with
    | error e =>
      rw [hp] at h7
      simp [Except.map] at h7
    | ok pd =>
      rw [hp] at h7
      simp only [Except.map] at h7
      injection h7 with h7
      rcases Option.bind_eq_some.mp h7 with ⟨row, hrow, hpx⟩
      simp only [getColorOfPx, hd, hp, hrow, hpx]
      rcases hcomp with hk | hk <;>
      · unfold resolvePixel
        rw [h1, hk, h3, h4, h5, h6]
        rfl

/-- Witness for C5: the 1×1 V4 BITFIELDS image `buf5` with pixel bytes
`[5, 6, 7, 8]` resolves to `[7, 6, 5, 8]`. -/
theorem masked_32bit_channel_order_witness :
    getColorOfPx buf5 0 0 = .ok [7, 6, 5, 8] :=
  masked_32bit_channel_order buf5 0 0 5 6 7 8 (by decide) (Or.inl (by decide))
    (by decide) (by decide) (by decide) (by decide) (by decide)

/-- Claim C6: `get_dib_header` dispatches on the 4-byte little-endian
discriminant at offset 14 — 12, 40, 108, 124 select the Core, Info, V4, V5
shapes respectively (parsing either panics on malformed trailing bytes or
yields a record of exactly that shape, never a clean `ErrorKind`), and every
other discriminant fails with `Unsupported`. -/
theorem dib_header_dispatch (c : List Nat) (n : Nat)
    (h : readU32P c 14 = .ok n) :
    dispatchesTo (getDibHeader c) (shapeOfSize n) := by
  unfold getDibHeader
  rw [h]
  by_cases h12 : n = 12
  · subst h12
    show dispatchesTo (liftPanic (parseCore c)) (some Shape.Core)
    cases hp : parseCore c with
    | error p => trivial
    | ok d => exact parseCore_shape c d hp
  · by_cases h40 : n = 40
    · subst h40
      show dispatchesTo (liftPanic (parseInfo c)) (some Shape.Info)
      cases hp : parseInfo c with
      | error p => trivial
      | ok d => exact parseInfo_shape c d hp
    · by_cases h108 : n = 108
      · subst h108
        show dispatchesTo (liftPanic (parseV4 c)) (some Shape.V4)
        cases hp : parseV4 c with
        | error p => trivial
        | ok d => exact parseV4_shape c d hp
      · by_cases h124 : n = 124
        · subst h124
          show dispatchesTo (liftPanic (parseV5 c)) (some Shape.V5)
          cases hp : parseV5 c with
          | error p => trivial
          | ok d => exact parseV5_shape c d hp
        · show dispatchesTo
            (if n = 12 then liftPanic (parseCore c)
             else if n = 40 then liftPanic (parseInfo c)
             else if n = 108 then liftPanic (parseV4 c)
             else if n = 124 then liftPanic (parseV5 c)
             else Except.error (Failure.err ErrorKind.Unsupported)) (shapeOfSize n)
          rw [if_neg h12, if_neg h40, if_neg h108, if_neg h124]
          show dispatchesTo (.error (.err ErrorKind.Unsupported)) (shapeOfSize n)
          unfold shapeOfSize
          rw [if_neg h12, if_neg h40, if_neg h108, if_neg h124]
          rfl

/-- Witness for C6: the V4 buffer `buf5` carries discriminant 108 and parses
to the V4 shape. -/
theorem dib_header_dispatch_witness :
    dispatchesTo (getDibHeader buf5) (shapeOfSize 108) :=
  dib_header_dispatch buf5 108 (by decide)

/-- Claim C7: for an Info/V4/V5 header, `get_color_table` fails with
`UseExtraBitMasks` exactly when compression is BITFIELDS and the bit depth is
16 or 32; it fails with `DoesNotExist` when compression is RGB and the bit
depth is at least 16; otherwise it returns the 4-byte RGBQUAD entries read
from offset `14 + headerSize` up to the pixel-data offset. -/
theorem color_table_characterization (c : List Nat) (s b e : Nat) (k : Compression)
    (h1 : (getDibHeader c).map DIBHEADER.size = .ok s)
    (h2 : s = 40 ∨ s = 108 ∨ s = 124)
    (h3 : (getDibHeader c).map DIBHEADER.compression = .ok (some k))
    (h4 : (getDibHeader c).map DIBHEADER.bitcount = .ok b)
    (h5 : (getHeader c).map BITMAPFILEHEADER.bfOffBits = .ok e) :
    (getColorTable c = .error (.err ErrorKind.UseExtraBitMasks) ↔
      (k = Compression.BI_BITFIELDS ∧ (b = 16 ∨ b = 32))) ∧
    ((k = Compression.BI_RGB ∧ 16 ≤ b) →
      getColorTable c = .error (.err ErrorKind.DoesNotExist)) ∧
    (¬(k = Compression.BI_BITFIELDS ∧ (b = 16 ∨ b = 32)) →
      ¬(k = Compression.BI_RGB ∧ 16 ≤ b) → 14 + s ≤ e →
      getColorTable c =
        liftPanic ((rgbquadFrom c (14 + s) 0 ((e - (14 + s)) / 4)).map ColorTable.RGBQUAD)) := by
  cases hd : getDibHeader c with
  | error e2 =>
    rw [hd] at h1
    simp [Except.map] at h1
  | ok dib =>
    rw [hd] at h1 h3 h4
    simp only [Except.map] at h1 h3 h4
    injection h1 with h1
    injection h3 with h3
    injection h4 with h4
    cases hh : getHeader c with
    | error e2 =>
      rw [hh] at h5
      simp [Except.map] at h5
    | ok hdr =>
      rw [hh] at h5
      simp only [Except.map] at h5
      injection h5 with h5
      subst h1
      subst h4
      subst h5
      have hne12 : ¬ (dib.size = 12) := by rcases h2 with h | h | h <;> omega
      simp only [getColorTable, hd, hh, h3, if_neg hne12, if_pos h2]
      by_cases c1 : k = Compression.BI_BITFIELDS ∧ (dib.bitcount = 16 ∨ dib.bitcount = 32)
      · rw [if_pos c1]
        refine ⟨⟨fun _ => c1, fun _ => rfl⟩, fun c3 => ?_, fun nc1 _ _ => absurd c1 nc1⟩
        exact absurd (c1.1.symm.trans c3.1) (by decide)
      · rw [if_neg c1]
        by_cases c3 : k = Compression.BI_RGB ∧ 16 ≤ dib.bitcount
        · rw [if_pos c3]
          exact ⟨⟨fun hcontra => absurd hcontra (by decide), fun hcc => absurd hcc c1⟩,
            fun _ => rfl, fun _ nc3 _ => absurd c3 nc3⟩
        · rw [if_neg c3]
          refine ⟨⟨fun hcontra => ?_, fun hcc => absurd hcc c1⟩,
            fun c3' => absurd c3' c3, fun _ _ hle => ?_⟩
          · cases hu : u16sub hdr.bfOffBits (14 + dib.size) with
            | error p =>
              simp [hu] at hcontra
            | ok diff =>
              simp only [hu] at hcontra
              cases hq : rgbquadFrom c (14 + dib.size) 0 (diff / 4) with
              | error p =>
                simp [hq, Except.map, liftPanic] at hcontra
              | ok t =>
                simp [hq, Except.map, liftPanic] at hcontra
          · have hu : u16sub hdr.bfOffBits (14 + dib.size) =
                .ok (hdr.bfOffBits - (14 + dib.size)) := by
              unfold u16sub
              rw [if_pos hle]
            rw [hu]

/-- Witness for C7: the Info+BITFIELDS 32-bit buffer `buf7` makes
`get_color_table` fail with `UseExtraBitMasks`. -/
theorem color_table_characterization_witness :
    getColorTable buf7 = .error (.err ErrorKind.UseExtraBitMasks) :=
  (color_table_characterization buf7 40 32 66 Compression.BI_BITFIELDS
    (by decide) (Or.inl rfl) (by decide) (by decide) (by decide)).1.mpr
    ⟨rfl, Or.inr rfl⟩

/-- Claim C10: whenever `fill_bucket` returns `Ok(visited)`, the visited list
holds no duplicate coordinates — a coordinate already in the list is skipped
when dequeued, so each coordinate is appended at most once. -/
theorem fill_bucket_visited_nodup (c f : List Nat) (x y : Nat)
    (h : isOkR (fillBucket c f x y) = true) :
    (visitedOf (fillBucket c f x y)).Nodup := by
  cases hres : fillBucket c f x y with
  | error e =>
    rw [hres] at h
    simp [isOkR] at h
  | ok res =>
    simp only [fillBucket] at hres
    cases hd : getDibHeader c with
    | error e => simp [hd] at hres
    | ok dib =>
      simp only [hd] at hres
      cases hrc : getColorOfPx c x y with
      | error e => simp [hrc] at hres
      | ok rc =>
        simp only [hrc] at hres
        cases hl : fillBucketLoop c dib rc fillFuel [] [(x % 65536, y % 65536)] with
        | error e => simp [hl] at hres
        | ok visited =>
          simp only [hl] at hres
          cases hf : fillFinal c f visited with
          | error e => simp [hf] at hres
          | ok c2 =>
            simp only [hf] at hres
            injection hres with hres
            subst hres
            exact fillLoop_nodup c dib rc fillFuel [] [(x % 65536, y % 65536)]
              visited List.nodup_nil hl

/-- Witness for C10: on the 3×3 image `buf10` seeded at the isolated pixel
(1, 1), `fill_bucket` succeeds and its visited list is duplicate-free. -/
theorem fill_bucket_visited_nodup_witness :
    (visitedOf (fillBucket buf10 [1, 2, 3, 4] 1 1)).Nodup :=
  fill_bucket_visited_nodup buf10 [1, 2, 3, 4] 1 1 (by decide)

end BMPRust
